import Mathlib

/-!
Formal model of the FingerReach gym environment
(src/python/pybullet_fingers/gym_wrapper/envs/finger_reach.py).

The constructor-side numerics (smoothing schedule, control-rate check) are
modelled with exact rational arithmetic; Python's int() and round() are
modelled exactly.  The step/reward path is modelled over the reals and is
parametric in the robot driver: SimFinger / RealFinger, the finger spaces and
the scaling utilities are external collaborators of the core (spec section 6),
so they enter as abstract data (a Finger record, an opaque unscale function).
The environment's mutable attributes are split into the smoothing-related
state (SmoothState, exact rationals) and the step-related state (EnvState,
reals); the two interact only through the scalar coefficient, which the step
model takes as an arbitrary real.
-/

namespace FingerReach

/-- Python int() applied to a float truncates toward zero. -/
def pyInt (q : ℚ) : ℤ := if 0 ≤ q then ⌊q⌋ else ⌈q⌉

/-- Python round() applied to a float rounds half to even (banker rounding);
int() of the resulting integral float is exact, so the composition
int(round(x)) is this integer. -/
def pyRound (q : ℚ) : ℤ :=
  if q - (⌊q⌋ : ℚ) < 1/2 then ⌊q⌋
  else if (1 : ℚ)/2 < q - (⌊q⌋ : ℚ) then ⌊q⌋ + 1
  else if 2 ∣ ⌊q⌋ then ⌊q⌋ else ⌊q⌋ + 1

/-- The smoothing_params dict of finger_reach.py (non-test keys):
num_episodes, start_after, stop_after, final_alpha. -/
structure SmoothingParams where
  num_episodes : ℤ
  start_after : ℚ
  stop_after : ℚ
  final_alpha : ℚ

/-- The smoothing-related attributes set in FingerReach.__init__
(lines 78-98): smoothing_start_episode, smoothing_stop_episode (none encodes
math.inf, used by the test-mode branch), smoothing_alpha,
smoothing_increase_step, episode_count. -/
structure SmoothState where
  smoothing_start_episode : ℤ
  smoothing_stop_episode : Option ℤ
  smoothing_alpha : ℚ
  smoothing_increase_step : ℚ
  episode_count : ℤ

/-- Comparison episode_count < smoothing_stop_episode, where none encodes
math.inf (every integer is below it). -/
def below_stop (c : ℤ) : Option ℤ → Bool
  | none => true
  | some s => decide (c < s)

/-- FingerReach.update_smoothing (lines 316-325): increment the coefficient
while smoothing_start_episode <= episode_count < smoothing_stop_episode. -/
def update_smoothing (s : SmoothState) : SmoothState :=
  if s.smoothing_start_episode ≤ s.episode_count ∧
      below_stop s.episode_count s.smoothing_stop_episode = true then
    { s with smoothing_alpha := s.smoothing_alpha + s.smoothing_increase_step }
  else s

/-- The smoothing-related part of FingerReach.reset (lines 293-294):
update_smoothing, then episode_count += 1. -/
def reset_smoothing (s : SmoothState) : SmoothState :=
  { update_smoothing s with
      episode_count := (update_smoothing s).episode_count + 1 }

/-- The test-mode branch of the constructor (lines 78-82): start episode 0,
alpha pinned to final_alpha, increment 0, stop episode math.inf. -/
def initSmoothingTest (final_alpha : ℚ) : SmoothState :=
  ⟨0, none, final_alpha, 0, 0⟩

/-- The non-test branch of the constructor (lines 84-95).  The per-episode
increment divides final_alpha by
int(num_episodes*stop_after) - int(num_episodes*start_after); Python raises
ZeroDivisionError when that difference is zero. -/
def initSmoothing (p : SmoothingParams) : Except String SmoothState :=
  if pyInt ((p.num_episodes : ℚ) * p.stop_after) -
      pyInt ((p.num_episodes : ℚ) * p.start_after) = 0 then
    Except.error "ZeroDivisionError"
  else
    Except.ok ⟨pyInt ((p.num_episodes : ℚ) * p.start_after),
      some (pyInt ((p.num_episodes : ℚ) * p.stop_after)), 0,
      p.final_alpha /
        ((pyInt ((p.num_episodes : ℚ) * p.stop_after) -
          pyInt ((p.num_episodes : ℚ) * p.start_after) : ℤ) : ℚ), 0⟩

/-- Lines 68-71: num_fingers is 1 for the exact string "single" and 3 for
every other value of finger_type. -/
def num_fingers_of (finger_type : String) : ℕ :=
  if finger_type = "single" then 1 else 3

/-- Line 73: simulation_rate_s = 0.004. -/
def simulation_rate_s : ℚ := 0.004

/-- The constructor-determined data the claims are about: num_fingers,
steps_per_control and the smoothing state after the constructor's final
reset() call (line 158). -/
structure Constructed where
  num_fingers : ℕ
  steps_per_control : ℤ
  smoothing : SmoothState

/-- The fallible arithmetic part of FingerReach.__init__, in source order:
steps_per_control = int(round(control_rate_s / simulation_rate_s)) with the
assert |control_rate_s - steps_per_control * simulation_rate_s| <= 1e-6
(lines 73-76), then the smoothing setup (lines 78-95, test branch selected by
the "is_test" key), then the reset() at line 158 which advances the smoothing
state once. -/
def constructEnv (control_rate_s : ℚ) (finger_type : String) (is_test : Bool)
    (p : SmoothingParams) : Except String Constructed :=
  if |control_rate_s - (pyRound (control_rate_s / simulation_rate_s) : ℚ) *
      simulation_rate_s| ≤ 1/1000000 then
    (if is_test then Except.ok (initSmoothingTest p.final_alpha)
     else initSmoothing p).map
      (fun s => ⟨num_fingers_of finger_type,
        pyRound (control_rate_s / simulation_rate_s), reset_smoothing s⟩)
  else Except.error "AssertionError"

/-- The smoothing coefficient in force during episode e (0-indexed; episode 0
is the one prepared by the constructor's own reset()): each later episode is
entered through one more reset(). -/
def alphaAtEpisode (s : SmoothState) (e : ℕ) : ℚ :=
  (reset_smoothing^[e] s).smoothing_alpha

/-- Number of episode counters k in [0, e] with Sa <= k < St (meaningful for
0 <= Sa < St): the number of increments the coefficient has received by the
start of episode e. -/
def rampCount (Sa St e : ℤ) : ℤ :=
  if e < Sa then 0 else if e < St then e - Sa + 1 else St - Sa

/-- The driver interface consumed by step/reset (SimFinger / RealFinger are
external collaborators; spec section 6): set_action(action, mode),
step_robot(wait_flag), the observation fields position and velocity, and
forward_kinematics returning the flattened end-effector positions. -/
structure Finger (σ : Type) (k : ℕ) where
  set_action : σ → (Fin k → ℝ) → String → σ
  step_robot : σ → Bool → σ
  position : σ → Fin k → ℝ
  velocity : σ → Fin k → ℝ
  forward_kinematics : (Fin k → ℝ) → List ℝ

/-- The parts of the observation read by _compute_reward (lines 172-179):
the joint_positions and joint_velocities slices captured from the driver. -/
structure Obs (k : ℕ) where
  joint_positions : Fin k → ℝ
  joint_velocities : Fin k → ℝ

/-- The step-related mutable attributes of the environment: the driver state,
smoothing_alpha (an arbitrary real here; its schedule lives in SmoothState),
the smoothed_action buffer (None after reset) and the goal attribute
(none models the attribute being unset: reading it raises AttributeError). -/
structure EnvState (σ : Type) (k : ℕ) where
  driver : σ
  smoothing_alpha : ℝ
  smoothed_action : Option (Fin k → ℝ)
  goal : Option (List ℝ)

/-- What one successful step() call returns and mutates: the new driver
state, the stored smoothed_action, the captured observation, the reward, the
done flag, and info.is_success = np.float32(done). -/
structure StepOut (σ : Type) (k : ℕ) where
  driver : σ
  smoothed_action : Fin k → ℝ
  observation : Obs k
  reward : ℝ
  done : Bool
  is_success : ℝ

noncomputable instance {k : ℕ} : Inhabited (Obs k) :=
  ⟨⟨fun _ => 0, fun _ => 0⟩⟩

noncomputable instance {σ : Type} {k : ℕ} [Inhabited σ] :
    Inhabited (StepOut σ k) :=
  ⟨⟨default, fun _ => 0, default, 0, false, 0⟩⟩

/-- Modelled from the spec: utils.compute_distance is repository code that is
not under src/; the spec (section 4.4, step item 4) calls it the Euclidean
distance from the current end-effector position(s) to the goal, and the
Frobenius norm used for matrices equals the vector 2-norm of the flattened
difference, so both positions and goal enter flattened. -/
noncomputable def compute_distance (a b : List ℝ) : ℝ :=
  Real.sqrt (((a.zip b).map fun x => (x.1 - x.2) ^ 2).sum)

/-- Modelled from the spec: np.linalg.norm on the joint-velocity vector is
the Euclidean norm (spec: velocity penalty velocity_cost_factor times the
norm of the joint velocities). -/
noncomputable def euclidNorm {k : ℕ} (v : Fin k → ℝ) : ℝ :=
  Real.sqrt (∑ i, v i ^ 2)

/-- The smoothing computation of step() (lines 249-255): when the buffer is
None it is first set to the unscaled action, then in either case the stored
action becomes alpha * previous + (1 - alpha) * unscaled. -/
def commandedAction {k : ℕ} (α : ℝ) (prev : Option (Fin k → ℝ))
    (unscaled : Fin k → ℝ) : Fin k → ℝ :=
  let p := match prev with | none => unscaled | some q => q
  fun i => α * p i + (1 - α) * unscaled i

/-- FingerReach._compute_reward (lines 160-188): reward is
(-distance_to_goal - velocity_cost_factor * velocity) * steps_per_control,
done is always False. -/
noncomputable def compute_reward {σ : Type} {k : ℕ} (F : Finger σ k)
    (velocity_cost_factor : ℝ) (N : ℕ) (obs : Obs k) (goal : List ℝ) :
    ℝ × Bool :=
  ((-(compute_distance (F.forward_kinematics obs.joint_positions) goal) -
      velocity_cost_factor * euclidNorm obs.joint_velocities) * (N : ℝ),
    false)

/-- The observation capture of _get_observation (lines 190-227) as far as the
claims need it: it reads self.goal (line 208), so with the goal attribute
unset it raises AttributeError; otherwise it records the driver's current
position and velocity. -/
def get_observation {σ : Type} {k : ℕ} (F : Finger σ k)
    (goal : Option (List ℝ)) (s : σ) : Except String (Obs k) :=
  match goal with
  | none => Except.error "AttributeError: goal"
  | some _ => Except.ok ⟨F.position s, F.velocity s⟩

/-- One iteration's driver effect: set_action(action, "position") followed by
step_robot(b) (lines 261-262). -/
def commandTick {σ : Type} {k : ℕ} (F : Finger σ k) (a : Fin k → ℝ) (b : Bool)
    (s : σ) : σ :=
  F.step_robot (F.set_action s a "position") b

/-- One iteration of the control loop (lines 260-266): command the driver
with the smoothed action in position mode, advance one tick passing
(observation is None) as the wait flag, and capture the observation when it
is still None. -/
def loopIter {σ : Type} {k : ℕ} (F : Finger σ k) (goal : Option (List ℝ))
    (a : Fin k → ℝ) (p : σ × Option (Obs k)) :
    Except String (σ × Option (Obs k)) :=
  let s2 := F.step_robot (F.set_action p.1 a "position") p.2.isNone
  match p.2 with
  | none => (get_observation F goal s2).map fun o => (s2, some o)
  | some o => Except.ok (s2, some o)

/-- The for-loop of step() over range(steps_per_control). -/
def controlLoop {σ : Type} {k : ℕ} (F : Finger σ k) (goal : Option (List ℝ))
    (a : Fin k → ℝ) : ℕ → σ × Option (Obs k) →
    Except String (σ × Option (Obs k))
  | 0, p => Except.ok p
  | n + 1, p => (loopIter F goal a p).bind (controlLoop F goal a n)

/-- FingerReach.step (lines 229-271): unscale the action, smooth it, run the
control loop, compute the reward from the captured observation and the goal,
and return the outcome.  A still-missing observation (empty loop) makes
_compute_reward fail on None, modelled as a TypeError. -/
noncomputable def step {σ : Type} {k : ℕ} (F : Finger σ k)
    (unscale : (Fin k → ℝ) → Fin k → ℝ) (velocity_cost_factor : ℝ) (N : ℕ)
    (st : EnvState σ k) (action : Fin k → ℝ) : Except String (StepOut σ k) :=
  let unscaled := unscale action
  let smoothed := commandedAction st.smoothing_alpha st.smoothed_action unscaled
  (controlLoop F st.goal smoothed N (st.driver, none)).bind fun p =>
    match p.2 with
    | none => Except.error "TypeError: observation is None"
    | some obs =>
      match st.goal with
      | none => Except.error "AttributeError: goal"
      | some g =>
        Except.ok ⟨p.1, smoothed, obs,
          (compute_reward F velocity_cost_factor N obs g).1,
          (compute_reward F velocity_cost_factor N obs g).2,
          if (compute_reward F velocity_cost_factor N obs g).2 then 1 else 0⟩

/-- The step-related part of FingerReach.reset (lines 295-305): the
smoothed-action buffer is cleared and the goal attribute is set to the
forward kinematics of the freshly sampled joint configuration (the sampling
itself is the driver's, hence a parameter). -/
def reset {σ : Type} {k : ℕ} (F : Finger σ k) (st : EnvState σ k)
    (sampled : Fin k → ℝ) : EnvState σ k :=
  { st with smoothed_action := none,
            goal := some (F.forward_kinematics sampled) }

/-- A concrete trivial driver over a unit state, used to witness the step
theorems on explicit inputs. -/
def trivFinger : Finger Unit 1 :=
  ⟨fun _ _ _ => (), fun _ _ => (), fun _ _ => 0, fun _ _ => 0, fun _ => [0]⟩

/-- A concrete post-reset state whose goal is [0]. -/
def stTriv : EnvState Unit 1 := ⟨(), 0, none, some [0]⟩

/-- A concrete pre-reset state whose goal attribute is unset. -/
def stNoGoal : EnvState Unit 1 := ⟨(), 0, none, none⟩

/-- A concrete zero action. -/
def aTriv : Fin 1 → ℝ := fun _ => 0

/-- The outcome of one concrete step() call on the trivial driver. -/
noncomputable def outTriv : StepOut Unit 1 :=
  (step trivFinger id 0 1 stTriv aTriv).toOption.getD default

/-- The constructed record for control_rate_s = 0.004 and the smoothing
configuration (10, 0.2, 0.8, 1/2). -/
def cW : Constructed :=
  ⟨num_fingers_of "single", pyRound ((0.004 : ℚ) / simulation_rate_s),
   reset_smoothing ⟨pyInt (((10 : ℤ) : ℚ) * (0.2 : ℚ)),
     some (pyInt (((10 : ℤ) : ℚ) * (0.8 : ℚ))), 0,
     (1/2 : ℚ) / ((pyInt (((10 : ℤ) : ℚ) * (0.8 : ℚ)) -
       pyInt (((10 : ℤ) : ℚ) * (0.2 : ℚ)) : ℤ) : ℚ), 0⟩⟩

/-- The constructed record for control_rate_s = 0.004 and the smoothing
configuration (10, 0, 1, -1), whose increment is negative. -/
def cNeg : Constructed :=
  ⟨num_fingers_of "single", pyRound ((0.004 : ℚ) / simulation_rate_s),
   reset_smoothing ⟨pyInt (((10 : ℤ) : ℚ) * (0 : ℚ)),
     some (pyInt (((10 : ℤ) : ℚ) * (1 : ℚ))), 0,
     (-1 : ℚ) / ((pyInt (((10 : ℤ) : ℚ) * (1 : ℚ)) -
       pyInt (((10 : ℤ) : ℚ) * (0 : ℚ)) : ℤ) : ℚ), 0⟩⟩

/-- The constructed record for control_rate_s = 0.02 in test mode with
final_alpha = 1/2. -/
def cT : Constructed :=
  ⟨num_fingers_of "single", pyRound ((0.02 : ℚ) / simulation_rate_s),
   reset_smoothing (initSmoothingTest (1/2))⟩

/-! Helper lemmas: evaluating pyInt, pyRound and the constructor on
concrete inputs, and eliminating successful constructor runs. -/

lemma pyInt_nonneg (q : ℚ) (h : 0 ≤ q) : 0 ≤ pyInt q := by
  rw [pyInt, if_pos h]
  exact Int.floor_nonneg.mpr h

lemma pyInt_eval (q : ℚ) (n : ℤ) (h0 : 0 ≤ q) (hf : ⌊q⌋ = n) : pyInt q = n := by
  rw [pyInt, if_pos h0, hf]

lemma pyRound_of_lt_half (q : ℚ) (n : ℤ) (h1 : ⌊q⌋ = n)
    (h2 : q - (n : ℚ) < 1/2) : pyRound q = n := by
  rw [pyRound, h1, if_pos h2]

lemma pyRound_of_half_even (q : ℚ) (n : ℤ) (h1 : ⌊q⌋ = n)
    (h2 : q - (n : ℚ) = 1/2) (h3 : 2 ∣ n) : pyRound q = n := by
  rw [pyRound, h1, h2]
  rw [if_neg (lt_irrefl _), if_neg (lt_irrefl _), if_pos h3]

lemma assert_ok_of (r : ℚ) (n : ℤ) (hN : pyRound (r / simulation_rate_s) = n)
    (h0 : r - (n : ℚ) * simulation_rate_s = 0) :
    |r - (pyRound (r / simulation_rate_s) : ℚ) * simulation_rate_s| ≤
      1/1000000 := by
  rw [hN, h0, abs_zero]
  norm_num

lemma pyRound_r004 : pyRound ((0.004 : ℚ) / simulation_rate_s) = 1 :=
  pyRound_of_lt_half _ 1 (by rw [simulation_rate_s]; norm_num)
    (by rw [simulation_rate_s]; norm_num)

lemma pyRound_r02 : pyRound ((0.02 : ℚ) / simulation_rate_s) = 5 :=
  pyRound_of_lt_half _ 5 (by rw [simulation_rate_s]; norm_num)
    (by rw [simulation_rate_s]; norm_num)

lemma pyRound_r01 : pyRound ((0.01 : ℚ) / simulation_rate_s) = 2 :=
  pyRound_of_half_even _ 2 (by rw [simulation_rate_s]; norm_num)
    (by rw [simulation_rate_s]; norm_num) ⟨1, by norm_num⟩

lemma assert_ok_004 :
    |(0.004 : ℚ) - (pyRound ((0.004 : ℚ) / simulation_rate_s) : ℚ) *
      simulation_rate_s| ≤ 1/1000000 :=
  assert_ok_of 0.004 1 pyRound_r004 (by rw [simulation_rate_s]; norm_num)

lemma assert_ok_02 :
    |(0.02 : ℚ) - (pyRound ((0.02 : ℚ) / simulation_rate_s) : ℚ) *
      simulation_rate_s| ≤ 1/1000000 :=
  assert_ok_of 0.02 5 pyRound_r02 (by rw [simulation_rate_s]; norm_num)

lemma assert_fail_01 :
    ¬ (|(0.01 : ℚ) - (pyRound ((0.01 : ℚ) / simulation_rate_s) : ℚ) *
      simulation_rate_s| ≤ 1/1000000) := by
  rw [pyRound_r01,
    show (0.01 : ℚ) - ((2 : ℤ) : ℚ) * simulation_rate_s = 1/500 by
      rw [simulation_rate_s]; norm_num,
    abs_of_pos (by norm_num)]
  norm_num

lemma pyInt_10_051 : pyInt (((10 : ℤ) : ℚ) * (0.51 : ℚ)) = 5 :=
  pyInt_eval _ 5 (by norm_num) (by norm_num)

lemma pyInt_10_055 : pyInt (((10 : ℤ) : ℚ) * (0.55 : ℚ)) = 5 :=
  pyInt_eval _ 5 (by norm_num) (by norm_num)

lemma pyInt_10_02 : pyInt (((10 : ℤ) : ℚ) * (0.2 : ℚ)) = 2 :=
  pyInt_eval _ 2 (by norm_num) (by norm_num)

lemma pyInt_10_05 : pyInt (((10 : ℤ) : ℚ) * (0.5 : ℚ)) = 5 :=
  pyInt_eval _ 5 (by norm_num) (by norm_num)

lemma pyInt_10_08 : pyInt (((10 : ℤ) : ℚ) * (0.8 : ℚ)) = 8 :=
  pyInt_eval _ 8 (by norm_num) (by norm_num)

lemma pyInt_10_0 : pyInt (((10 : ℤ) : ℚ) * (0 : ℚ)) = 0 :=
  pyInt_eval _ 0 (by norm_num) (by norm_num)

lemma pyInt_10_1 : pyInt (((10 : ℤ) : ℚ) * (1 : ℚ)) = 10 :=
  pyInt_eval _ 10 (by norm_num) (by norm_num)

lemma constructEnv_assert_error (r : ℚ) (ft : String) (t : Bool)
    (p : SmoothingParams)
    (h : ¬ (|r - (pyRound (r / simulation_rate_s) : ℚ) * simulation_rate_s| ≤
      1/1000000)) :
    constructEnv r ft t p = Except.error "AssertionError" := by
  unfold constructEnv
  rw [if_neg h]

lemma constructEnv_ok_test_intro (r : ℚ) (ft : String) (p : SmoothingParams)
    (habs : |r - (pyRound (r / simulation_rate_s) : ℚ) * simulation_rate_s| ≤
      1/1000000) :
    constructEnv r ft true p =
      Except.ok ⟨num_fingers_of ft, pyRound (r / simulation_rate_s),
        reset_smoothing (initSmoothingTest p.final_alpha)⟩ := by
  unfold constructEnv
  rw [if_pos habs]
  rfl

lemma constructEnv_ok_intro (r : ℚ) (ft : String) (p : SmoothingParams)
    (habs : |r - (pyRound (r / simulation_rate_s) : ℚ) * simulation_rate_s| ≤
      1/1000000)
    (hz : pyInt ((p.num_episodes : ℚ) * p.stop_after) -
      pyInt ((p.num_episodes : ℚ) * p.start_after) ≠ 0) :
    constructEnv r ft false p =
      Except.ok ⟨num_fingers_of ft, pyRound (r / simulation_rate_s),
        reset_smoothing ⟨pyInt ((p.num_episodes : ℚ) * p.start_after),
          some (pyInt ((p.num_episodes : ℚ) * p.stop_after)), 0,
          p.final_alpha /
            ((pyInt ((p.num_episodes : ℚ) * p.stop_after) -
              pyInt ((p.num_episodes : ℚ) * p.start_after) : ℤ) : ℚ), 0⟩⟩ := by
  unfold constructEnv
  rw [if_pos habs]
  unfold initSmoothing
  rw [if_neg hz]
  rfl

lemma constructEnv_divzero_intro (r : ℚ) (ft : String) (p : SmoothingParams)
    (habs : |r - (pyRound (r / simulation_rate_s) : ℚ) * simulation_rate_s| ≤
      1/1000000)
    (hz : pyInt ((p.num_episodes : ℚ) * p.stop_after) =
      pyInt ((p.num_episodes : ℚ) * p.start_after)) :
    constructEnv r ft false p = Except.error "ZeroDivisionError" := by
  unfold constructEnv
  rw [if_pos habs]
  unfold initSmoothing
  rw [if_pos (sub_eq_zero_of_eq hz)]
  rfl

lemma constructEnv_ok_steps (r : ℚ) (ft : String) (t : Bool)
    (p : SmoothingParams) (c : Constructed)
    (h : constructEnv r ft t p = Except.ok c) :
    c.steps_per_control = pyRound (r / simulation_rate_s) ∧
    |r - (pyRound (r / simulation_rate_s) : ℚ) * simulation_rate_s| ≤
      1/1000000 := by
  unfold constructEnv at h
  by_cases habs : |r - (pyRound (r / simulation_rate_s) : ℚ) *
      simulation_rate_s| ≤ 1/1000000
  · rw [if_pos habs] at h
    refine ⟨?_, habs⟩
    rcases hs : (if t then Except.ok (initSmoothingTest p.final_alpha)
        else initSmoothing p) with msg | s
    · rw [hs] at h
      simp [Except.map] at h
    · rw [hs] at h
      simp only [Except.map, Except.ok.injEq] at h
      rw [← h]
  · rw [if_neg habs] at h
    simp at h

lemma constructEnv_ok_elim (r : ℚ) (ft : String) (p : SmoothingParams)
    (c : Constructed) (h : constructEnv r ft false p = Except.ok c) :
    pyInt ((p.num_episodes : ℚ) * p.stop_after) -
      pyInt ((p.num_episodes : ℚ) * p.start_after) ≠ 0 ∧
    c = ⟨num_fingers_of ft, pyRound (r / simulation_rate_s),
      reset_smoothing ⟨pyInt ((p.num_episodes : ℚ) * p.start_after),
        some (pyInt ((p.num_episodes : ℚ) * p.stop_after)), 0,
        p.final_alpha /
          ((pyInt ((p.num_episodes : ℚ) * p.stop_after) -
            pyInt ((p.num_episodes : ℚ) * p.start_after) : ℤ) : ℚ), 0⟩⟩ := by
  unfold constructEnv at h
  by_cases habs : |r - (pyRound (r / simulation_rate_s) : ℚ) *
      simulation_rate_s| ≤ 1/1000000
  · rw [if_pos habs, if_neg Bool.false_ne_true] at h
    unfold initSmoothing at h
    by_cases hz : pyInt ((p.num_episodes : ℚ) * p.stop_after) -
        pyInt ((p.num_episodes : ℚ) * p.start_after) = 0
    · rw [if_pos hz] at h
      simp [Except.map] at h
    · rw [if_neg hz] at h
      simp only [Except.map, Except.ok.injEq] at h
      exact ⟨hz, h.symm⟩
  · rw [if_neg habs] at h
    simp at h

/-- C2: the repeat count is N = int(round(control_rate_s / 0.004)) for the
fixed tick 0.004 s, and construction fails whenever
|control_rate_s - N * 0.004| > 1e-6; concretely 0.004 gives N = 1, 0.02
gives N = 5, and 0.01 fails the configuration assert. -/
theorem steps_per_control_spec :
    (∀ (r : ℚ) (ft : String) (t : Bool) (p : SmoothingParams)
        (c : Constructed), constructEnv r ft t p = Except.ok c →
        c.steps_per_control = pyRound (r / simulation_rate_s) ∧
        |r - (c.steps_per_control : ℚ) * simulation_rate_s| ≤ 1/1000000) ∧
    (∀ (r : ℚ) (ft : String) (t : Bool) (p : SmoothingParams),
        1/1000000 <
          |r - (pyRound (r / simulation_rate_s) : ℚ) * simulation_rate_s| →
        constructEnv r ft t p = Except.error "AssertionError") ∧
    (constructEnv 0.004 "single" true ⟨100, 0, 1, 1/2⟩).toOption.map
      (fun c => c.steps_per_control) = some 1 ∧
    (constructEnv 0.02 "single" true ⟨100, 0, 1, 1/2⟩).toOption.map
      (fun c => c.steps_per_control) = some 5 ∧
    constructEnv 0.01 "single" true ⟨100, 0, 1, 1/2⟩ =
      Except.error "AssertionError" := by
  refine ⟨?_, ?_, ?_, ?_, ?_⟩
  · intro r ft t p c h
    obtain ⟨h1, h2⟩ := constructEnv_ok_steps r ft t p c h
    refine ⟨h1, ?_⟩
    rw [h1]
    exact h2
  · intro r ft t p h
    exact constructEnv_assert_error r ft t p (not_le.mpr h)
  · rw [constructEnv_ok_test_intro 0.004 "single" ⟨100, 0, 1, 1/2⟩
      assert_ok_004]
    simp [Except.toOption, pyRound_r004]
  · rw [constructEnv_ok_test_intro 0.02 "single" ⟨100, 0, 1, 1/2⟩
      assert_ok_02]
    simp [Except.toOption, pyRound_r02]
  · exact constructEnv_assert_error 0.01 "single" true _ assert_fail_01

/-- C2 witness: applying the theorem at control_rate_s = 0.02 in test mode. -/
theorem steps_per_control_spec_witness :
    constructEnv 0.02 "single" true ⟨100, 0, 1, 1/2⟩ = Except.ok cT ∧
    cT.steps_per_control = pyRound ((0.02 : ℚ) / simulation_rate_s) := by
  have hc : constructEnv 0.02 "single" true ⟨100, 0, 1, 1/2⟩ =
      Except.ok cT :=
    constructEnv_ok_test_intro 0.02 "single" ⟨100, 0, 1, 1/2⟩ assert_ok_02
  exact ⟨hc,
    (steps_per_control_spec.1 0.02 "single" true ⟨100, 0, 1, 1/2⟩ cT hc).1⟩

/-- C6 counterexample: the configuration stop_after = 0.2 <= start_after =
0.5 with num_episodes = 10 satisfies the claimed failure condition, yet
construction succeeds (the negative threshold difference is accepted
silently). -/
theorem smoothing_failfast_cex :
    ((0.2 : ℚ) ≤ 0.5 ∧ (0 : ℤ) < 10) ∧
    (constructEnv 0.004 "single" false ⟨10, 0.5, 0.2, 1/2⟩).toOption.isSome =
      true := by
  refine ⟨⟨by norm_num, by norm_num⟩, ?_⟩
  have hz : pyInt (((10 : ℤ) : ℚ) * (0.2 : ℚ)) -
      pyInt (((10 : ℤ) : ℚ) * (0.5 : ℚ)) ≠ 0 := by
    rw [pyInt_10_02, pyInt_10_05]
    norm_num
  rw [constructEnv_ok_intro 0.004 "single" ⟨10, 0.5, 0.2, 1/2⟩ assert_ok_004
    hz]
  rfl

/-- C6 amended: in non-test mode (with a control rate passing the assert)
construction fails fast exactly when the truncated episode thresholds
coincide, int(num_episodes*stop_after) = int(num_episodes*start_after); a
schedule with stop_after <= start_after or num_episodes <= 0 whose truncated
thresholds differ is accepted silently. -/
theorem smoothing_failfast_amended (r : ℚ) (ft : String) (p : SmoothingParams)
    (habs : |r - (pyRound (r / simulation_rate_s) : ℚ) * simulation_rate_s| ≤
      1/1000000) :
    (constructEnv r ft false p).toOption = none ↔
      pyInt ((p.num_episodes : ℚ) * p.stop_after) =
        pyInt ((p.num_episodes : ℚ) * p.start_after) := by
  unfold constructEnv
  rw [if_pos habs, if_neg Bool.false_ne_true]
  unfold initSmoothing
  by_cases hz : pyInt ((p.num_episodes : ℚ) * p.stop_after) -
      pyInt ((p.num_episodes : ℚ) * p.start_after) = 0
  · rw [if_pos hz]
    simp only [Except.map, Except.toOption]
    exact iff_of_true trivial (sub_eq_zero.mp hz)
  · rw [if_neg hz]
    simp only [Except.map, Except.toOption]
    constructor
    · intro hcontra
      exact absurd hcontra (Option.some_ne_none _)
    · intro h
      exact absurd (sub_eq_zero_of_eq h) hz

/-- C6 amended witness: applying the amended theorem at a concrete
configuration whose truncated thresholds coincide. -/
theorem smoothing_failfast_amended_witness :
    (constructEnv 0.004 "single" false ⟨10, 0.51, 0.55, 1/3⟩).toOption =
      none ↔
    pyInt (((10 : ℤ) : ℚ) * (0.55 : ℚ)) =
      pyInt (((10 : ℤ) : ℚ) * (0.51 : ℚ)) :=
  smoothing_failfast_amended 0.004 "single" ⟨10, 0.51, 0.55, 1/3⟩
    assert_ok_004

/-- C9: in non-test mode the constructor divides final_alpha by
int(num_episodes*stop_after) - int(num_episodes*start_after), so whenever the
two truncated values coincide it raises ZeroDivisionError, and this is
reachable under 0 <= start_after < stop_after <= 1 with num_episodes > 0,
for example (10, 0.51, 0.55). -/
theorem truncation_divzero :
    (∀ (r : ℚ) (ft : String) (p : SmoothingParams),
        |r - (pyRound (r / simulation_rate_s) : ℚ) * simulation_rate_s| ≤
          1/1000000 →
        pyInt ((p.num_episodes : ℚ) * p.stop_after) =
          pyInt ((p.num_episodes : ℚ) * p.start_after) →
        constructEnv r ft false p = Except.error "ZeroDivisionError") ∧
    ((0 : ℚ) ≤ 0.51 ∧ (0.51 : ℚ) < 0.55 ∧ (0.55 : ℚ) ≤ 1 ∧ (0 : ℤ) < 10 ∧
      constructEnv 0.004 "single" false ⟨10, 0.51, 0.55, 3/10⟩ =
        Except.error "ZeroDivisionError") := by
  refine ⟨constructEnv_divzero_intro, ⟨by norm_num, by norm_num, by norm_num,
    by norm_num, ?_⟩⟩
  exact constructEnv_divzero_intro 0.004 "single" ⟨10, 0.51, 0.55, 3/10⟩
    assert_ok_004
    (by show pyInt (((10 : ℤ) : ℚ) * (0.55 : ℚ)) =
          pyInt (((10 : ℤ) : ℚ) * (0.51 : ℚ))
        rw [pyInt_10_055, pyInt_10_051])

/-- C9 witness: applying the universally quantified part of the theorem at a
further concrete configuration. -/
theorem truncation_divzero_witness :
    constructEnv 0.004 "tri" false ⟨10, 0.51, 0.55, 1/2⟩ =
      Except.error "ZeroDivisionError" :=
  truncation_divzero.1 0.004 "tri" ⟨10, 0.51, 0.55, 1/2⟩ assert_ok_004
    (by show pyInt (((10 : ℤ) : ℚ) * (0.55 : ℚ)) =
          pyInt (((10 : ℤ) : ℚ) * (0.51 : ℚ))
        rw [pyInt_10_055, pyInt_10_051])

/-- C10: every finger_type other than the exact string "single" (including
unrecognized values) is treated as the tri-finger case with num_fingers = 3,
and the constructor behaves identically to finger_type = "tri" on such
values, so no validation rejects unknown finger types. -/
theorem finger_type_fallback :
    num_fingers_of "single" = 1 ∧
    ∀ ft : String, ft ≠ "single" →
      num_fingers_of ft = 3 ∧
      ∀ (r : ℚ) (t : Bool) (p : SmoothingParams),
        constructEnv r ft t p = constructEnv r "tri" t p := by
  refine ⟨by rw [num_fingers_of, if_pos rfl], ?_⟩
  intro ft hft
  have h3 : num_fingers_of ft = 3 := by rw [num_fingers_of, if_neg hft]
  have h3' : num_fingers_of "tri" = 3 := by
    rw [num_fingers_of, if_neg (by decide)]
  refine ⟨h3, fun r t p => ?_⟩
  unfold constructEnv
  simp only [h3, h3']

/-- C10 witness: the unknown finger_type "banana" yields three fingers and a
construction indistinguishable from "tri". -/
theorem finger_type_fallback_witness :
    num_fingers_of "banana" = 3 ∧
    constructEnv 0.004 "banana" true ⟨1, 0, 1, 1/2⟩ =
      constructEnv 0.004 "tri" true ⟨1, 0, 1, 1/2⟩ := by
  have h := finger_type_fallback.2 "banana" (by decide)
  exact ⟨h.1, h.2 0.004 true ⟨1, 0, 1, 1/2⟩⟩

/-! The smoothing schedule: structural lemmas about reset_smoothing and the
closed form of the coefficient across episodes. -/

lemma below_stop_some (c x : ℤ) : below_stop c (some x) = true ↔ c < x := by
  simp [below_stop]

lemma reset_smoothing_start (s : SmoothState) :
    (reset_smoothing s).smoothing_start_episode =
      s.smoothing_start_episode := by
  show (update_smoothing s).smoothing_start_episode = _
  unfold update_smoothing
  split <;> rfl

lemma reset_smoothing_stop (s : SmoothState) :
    (reset_smoothing s).smoothing_stop_episode = s.smoothing_stop_episode := by
  show (update_smoothing s).smoothing_stop_episode = _
  unfold update_smoothing
  split <;> rfl

lemma reset_smoothing_inc (s : SmoothState) :
    (reset_smoothing s).smoothing_increase_step =
      s.smoothing_increase_step := by
  show (update_smoothing s).smoothing_increase_step = _
  unfold update_smoothing
  split <;> rfl

lemma reset_smoothing_count (s : SmoothState) :
    (reset_smoothing s).episode_count = s.episode_count + 1 := by
  show (update_smoothing s).episode_count + 1 = _
  unfold update_smoothing
  split <;> rfl

lemma reset_smoothing_alpha (s : SmoothState) :
    (reset_smoothing s).smoothing_alpha = s.smoothing_alpha +
      (if s.smoothing_start_episode ≤ s.episode_count ∧
          below_stop s.episode_count s.smoothing_stop_episode = true
       then s.smoothing_increase_step else 0) := by
  show (update_smoothing s).smoothing_alpha = _
  unfold update_smoothing
  split
  · rfl
  · rw [add_zero]

lemma iter_start (s : SmoothState) (e : ℕ) :
    (reset_smoothing^[e] s).smoothing_start_episode =
      s.smoothing_start_episode := by
  induction e with
  | zero => rw [Function.iterate_zero_apply]
  | succ e ih => rw [Function.iterate_succ_apply', reset_smoothing_start, ih]

lemma iter_stop (s : SmoothState) (e : ℕ) :
    (reset_smoothing^[e] s).smoothing_stop_episode =
      s.smoothing_stop_episode := by
  induction e with
  | zero => rw [Function.iterate_zero_apply]
  | succ e ih => rw [Function.iterate_succ_apply', reset_smoothing_stop, ih]

lemma iter_inc (s : SmoothState) (e : ℕ) :
    (reset_smoothing^[e] s).smoothing_increase_step =
      s.smoothing_increase_step := by
  induction e with
  | zero => rw [Function.iterate_zero_apply]
  | succ e ih => rw [Function.iterate_succ_apply', reset_smoothing_inc, ih]

lemma iter_count (s : SmoothState) (e : ℕ) :
    (reset_smoothing^[e] s).episode_count = s.episode_count + (e : ℤ) := by
  induction e with
  | zero =>
    rw [Function.iterate_zero_apply]
    omega
  | succ e ih =>
    rw [Function.iterate_succ_apply', reset_smoothing_count, ih]
    omega

lemma alphaAtEpisode_succ (s : SmoothState) (e : ℕ) :
    alphaAtEpisode s (e + 1) = alphaAtEpisode s e +
      (if s.smoothing_start_episode ≤ s.episode_count + (e : ℤ) ∧
          below_stop (s.episode_count + (e : ℤ))
            s.smoothing_stop_episode = true
       then s.smoothing_increase_step else 0) := by
  unfold alphaAtEpisode
  rw [Function.iterate_succ_apply', reset_smoothing_alpha, iter_start,
    iter_stop, iter_inc, iter_count]

lemma alphaAtEpisode_closed (Sa St : ℤ) (inc : ℚ) (hSa : 0 ≤ Sa)
    (hlt : Sa < St) (e : ℕ) :
    alphaAtEpisode (reset_smoothing ⟨Sa, some St, 0, inc, 0⟩) e =
      inc * ((rampCount Sa St (e : ℤ) : ℤ) : ℚ) := by
  induction e with
  | zero =>
    show (reset_smoothing ⟨Sa, some St, 0, inc, 0⟩).smoothing_alpha = _
    rw [reset_smoothing_alpha]
    simp only [below_stop_some, Nat.cast_zero]
    by_cases h : Sa ≤ 0
    · rw [if_pos ⟨h, by omega⟩, rampCount, if_neg (by omega), if_pos (by omega)]
      have hSa0 : Sa = 0 := le_antisymm h hSa
      rw [hSa0]
      push_cast
      ring
    · rw [if_neg (by tauto), rampCount, if_pos (by omega)]
      push_cast
      ring
  | succ e ih =>
    rw [alphaAtEpisode_succ, ih, reset_smoothing_count, reset_smoothing_start,
      reset_smoothing_stop, reset_smoothing_inc]
    simp only [below_stop_some]
    have hcast : ((e + 1 : ℕ) : ℤ) = (e : ℤ) + 1 := by push_cast; ring
    by_cases h : Sa ≤ (0 : ℤ) + 1 + (e : ℤ) ∧ (0 : ℤ) + 1 + (e : ℤ) < St
    · rw [if_pos h, hcast]
      have hr : rampCount Sa St ((e : ℤ) + 1) = rampCount Sa St (e : ℤ) + 1 := by
        unfold rampCount
        split_ifs <;> omega
      rw [hr]
      push_cast
      ring
    · rw [if_neg h, hcast]
      have hr : rampCount Sa St ((e : ℤ) + 1) = rampCount Sa St (e : ℤ) := by
        unfold rampCount
        split_ifs <;> omega
      rw [hr, add_zero]

/-- C1 (amended): for every non-test configuration with num_episodes > 0,
0 <= start_after < stop_after <= 1, final_alpha >= 0 and
int(num_episodes*start_after) < int(num_episodes*stop_after) (the two extra
hypotheses the counterexample forces), on successful construction the
coefficient observed at the start of episode e is 0 for e before
int(num_episodes*start_after), is non-decreasing across resets, each reset
during the ramp adds exactly final_alpha divided by the threshold
difference, and the coefficient equals exactly final_alpha at and after
episode int(num_episodes*stop_after). -/
theorem smoothing_schedule (r : ℚ) (ft : String) (p : SmoothingParams)
    (c : Constructed) (hN0 : 0 < p.num_episodes) (hsa : 0 ≤ p.start_after)
    (hss : p.start_after < p.stop_after) (hs1 : p.stop_after ≤ 1)
    (hfa : 0 ≤ p.final_alpha)
    (hD : pyInt ((p.num_episodes : ℚ) * p.start_after) <
      pyInt ((p.num_episodes : ℚ) * p.stop_after))
    (hc : constructEnv r ft false p = Except.ok c) :
    (∀ e : ℕ, (e : ℤ) < pyInt ((p.num_episodes : ℚ) * p.start_after) →
        alphaAtEpisode c.smoothing e = 0) ∧
    (∀ e : ℕ, alphaAtEpisode c.smoothing e ≤
        alphaAtEpisode c.smoothing (e + 1)) ∧
    (∀ e : ℕ, pyInt ((p.num_episodes : ℚ) * p.start_after) ≤ (e : ℤ) + 1 →
        (e : ℤ) + 1 < pyInt ((p.num_episodes : ℚ) * p.stop_after) →
        alphaAtEpisode c.smoothing (e + 1) = alphaAtEpisode c.smoothing e +
          p.final_alpha /
            ((pyInt ((p.num_episodes : ℚ) * p.stop_after) -
              pyInt ((p.num_episodes : ℚ) * p.start_after) : ℤ) : ℚ)) ∧
    (∀ e : ℕ, pyInt ((p.num_episodes : ℚ) * p.stop_after) ≤ (e : ℤ) →
        alphaAtEpisode c.smoothing e = p.final_alpha) := by
  obtain ⟨hz, rfl⟩ := constructEnv_ok_elim r ft p c hc
  have hSa0 : 0 ≤ pyInt ((p.num_episodes : ℚ) * p.start_after) :=
    pyInt_nonneg _ (mul_nonneg (by exact_mod_cast hN0.le) hsa)
  have hcf := alphaAtEpisode_closed
    (pyInt ((p.num_episodes : ℚ) * p.start_after))
    (pyInt ((p.num_episodes : ℚ) * p.stop_after))
    (p.final_alpha /
      ((pyInt ((p.num_episodes : ℚ) * p.stop_after) -
        pyInt ((p.num_episodes : ℚ) * p.start_after) : ℤ) : ℚ)) hSa0 hD
  have hclose : ∀ e : ℕ, alphaAtEpisode (Constructed.mk (num_fingers_of ft)
      (pyRound (r / simulation_rate_s))
      (reset_smoothing ⟨pyInt ((p.num_episodes : ℚ) * p.start_after),
        some (pyInt ((p.num_episodes : ℚ) * p.stop_after)), 0,
        p.final_alpha /
          ((pyInt ((p.num_episodes : ℚ) * p.stop_after) -
            pyInt ((p.num_episodes : ℚ) * p.start_after) : ℤ) : ℚ),
        0⟩)).smoothing e =
      (p.final_alpha /
        ((pyInt ((p.num_episodes : ℚ) * p.stop_after) -
          pyInt ((p.num_episodes : ℚ) * p.start_after) : ℤ) : ℚ)) *
        ((rampCount (pyInt ((p.num_episodes : ℚ) * p.start_after))
          (pyInt ((p.num_episodes : ℚ) * p.stop_after)) (e : ℤ) : ℤ) : ℚ) :=
    fun e => hcf e
  refine ⟨?_, ?_, ?_, ?_⟩
  · intro e he
    rw [hclose e, rampCount, if_pos he]
    push_cast
    ring
  · intro e
    rw [hclose e, hclose (e + 1)]
    have hinc : 0 ≤ p.final_alpha /
        ((pyInt ((p.num_episodes : ℚ) * p.stop_after) -
          pyInt ((p.num_episodes : ℚ) * p.start_after) : ℤ) : ℚ) :=
      div_nonneg hfa (by exact_mod_cast (by omega : (0 : ℤ) ≤
        pyInt ((p.num_episodes : ℚ) * p.stop_after) -
          pyInt ((p.num_episodes : ℚ) * p.start_after)))
    have hle : rampCount (pyInt ((p.num_episodes : ℚ) * p.start_after))
        (pyInt ((p.num_episodes : ℚ) * p.stop_after)) (e : ℤ) ≤
        rampCount (pyInt ((p.num_episodes : ℚ) * p.start_after))
          (pyInt ((p.num_episodes : ℚ) * p.stop_after)) ((e + 1 : ℕ) : ℤ) := by
      unfold rampCount
      push_cast
      split_ifs <;> omega
    exact mul_le_mul_of_nonneg_left (by exact_mod_cast hle) hinc
  · intro e h1 h2
    rw [hclose e, hclose (e + 1)]
    have hcast : ((e + 1 : ℕ) : ℤ) = (e : ℤ) + 1 := by push_cast; ring
    rw [hcast]
    have hr : rampCount (pyInt ((p.num_episodes : ℚ) * p.start_after))
        (pyInt ((p.num_episodes : ℚ) * p.stop_after)) ((e : ℤ) + 1) =
        rampCount (pyInt ((p.num_episodes : ℚ) * p.start_after))
          (pyInt ((p.num_episodes : ℚ) * p.stop_after)) (e : ℤ) + 1 := by
      unfold rampCount
      split_ifs <;> omega
    rw [hr]
    push_cast
    ring
  · intro e he
    rw [hclose e]
    have hr : rampCount (pyInt ((p.num_episodes : ℚ) * p.start_after))
        (pyInt ((p.num_episodes : ℚ) * p.stop_after)) (e : ℤ) =
        pyInt ((p.num_episodes : ℚ) * p.stop_after) -
          pyInt ((p.num_episodes : ℚ) * p.start_after) := by
      unfold rampCount
      split_ifs <;> omega
    rw [hr]
    exact div_mul_cancel₀ _ (by exact_mod_cast (by omega : pyInt
      ((p.num_episodes : ℚ) * p.stop_after) -
        pyInt ((p.num_episodes : ℚ) * p.start_after) ≠ 0))


/-- C1 counterexample: two configurations inside the claim's stated
constraint set (0 <= start_after < stop_after <= 1, num_episodes > 0) break
the claim as stated.  With (10, 0.51, 0.55) the truncated thresholds
coincide, so construction raises ZeroDivisionError: the claimed increment is
a division by zero and no coefficient schedule exists.  With final_alpha =
-1 the schedule constructs but strictly decreases between episodes 0 and 1,
refuting monotone non-decrease. -/
theorem smoothing_schedule_cex :
    ((0 : ℚ) ≤ 0.51 ∧ (0.51 : ℚ) < 0.55 ∧ (0.55 : ℚ) ≤ 1 ∧ (0 : ℤ) < 10 ∧
      constructEnv 0.004 "single" false ⟨10, 0.51, 0.55, 1/2⟩ =
        Except.error "ZeroDivisionError") ∧
    ((0 : ℚ) ≤ 0 ∧ (0 : ℚ) < 1 ∧ (1 : ℚ) ≤ 1 ∧ (0 : ℤ) < 10 ∧
      constructEnv 0.004 "single" false ⟨10, 0, 1, -1⟩ = Except.ok cNeg ∧
      alphaAtEpisode cNeg.smoothing 1 < alphaAtEpisode cNeg.smoothing 0) := by
  constructor
  · refine ⟨by norm_num, by norm_num, by norm_num, by norm_num, ?_⟩
    exact constructEnv_divzero_intro 0.004 "single" ⟨10, 0.51, 0.55, 1/2⟩
      assert_ok_004
      (by show pyInt (((10 : ℤ) : ℚ) * (0.55 : ℚ)) =
            pyInt (((10 : ℤ) : ℚ) * (0.51 : ℚ))
          rw [pyInt_10_055, pyInt_10_051])
  · have hz : pyInt (((10 : ℤ) : ℚ) * (1 : ℚ)) -
        pyInt (((10 : ℤ) : ℚ) * (0 : ℚ)) ≠ 0 := by
      rw [pyInt_10_1, pyInt_10_0]
      norm_num
    refine ⟨by norm_num, by norm_num, by norm_num, by norm_num,
      constructEnv_ok_intro 0.004 "single" ⟨10, 0, 1, -1⟩ assert_ok_004 hz,
      ?_⟩
    have hcf := alphaAtEpisode_closed 0 10
      ((-1 : ℚ) / ((10 - 0 : ℤ) : ℚ)) (le_refl 0) (by omega)
    show alphaAtEpisode (reset_smoothing ⟨pyInt (((10 : ℤ) : ℚ) * (0 : ℚ)),
        some (pyInt (((10 : ℤ) : ℚ) * (1 : ℚ))), 0,
        (-1 : ℚ) / ((pyInt (((10 : ℤ) : ℚ) * (1 : ℚ)) -
          pyInt (((10 : ℤ) : ℚ) * (0 : ℚ)) : ℤ) : ℚ), 0⟩) 1 <
      alphaAtEpisode (reset_smoothing ⟨pyInt (((10 : ℤ) : ℚ) * (0 : ℚ)),
        some (pyInt (((10 : ℤ) : ℚ) * (1 : ℚ))), 0,
        (-1 : ℚ) / ((pyInt (((10 : ℤ) : ℚ) * (1 : ℚ)) -
          pyInt (((10 : ℤ) : ℚ) * (0 : ℚ)) : ℤ) : ℚ), 0⟩) 0
    rw [pyInt_10_1, pyInt_10_0, hcf 1, hcf 0]
    norm_num [rampCount]

/-- C1 witness: the amended theorem applied at the concrete configuration
(num_episodes 10, start_after 0.2, stop_after 0.8, final_alpha 1/2) with
control rate 0.004; episode 1 lies before the start threshold 2, so its
coefficient is 0. -/
theorem smoothing_schedule_witness :
    constructEnv 0.004 "single" false ⟨10, 0.2, 0.8, 1/2⟩ = Except.ok cW ∧
    alphaAtEpisode cW.smoothing 1 = 0 := by
  have hz : pyInt (((10 : ℤ) : ℚ) * (0.8 : ℚ)) -
      pyInt (((10 : ℤ) : ℚ) * (0.2 : ℚ)) ≠ 0 := by
    rw [pyInt_10_08, pyInt_10_02]
    norm_num
  have hc : constructEnv 0.004 "single" false ⟨10, 0.2, 0.8, 1/2⟩ =
      Except.ok cW :=
    constructEnv_ok_intro 0.004 "single" ⟨10, 0.2, 0.8, 1/2⟩ assert_ok_004 hz
  have hD : pyInt (((10 : ℤ) : ℚ) * (0.2 : ℚ)) <
      pyInt (((10 : ℤ) : ℚ) * (0.8 : ℚ)) := by
    rw [pyInt_10_08, pyInt_10_02]
    norm_num
  refine ⟨hc, ?_⟩
  exact (smoothing_schedule 0.004 "single" ⟨10, 0.2, 0.8, 1/2⟩ cW
      (show (0 : ℤ) < 10 by norm_num) (show (0 : ℚ) ≤ 0.2 by norm_num)
      (show (0.2 : ℚ) < 0.8 by norm_num) (show (0.8 : ℚ) ≤ 1 by norm_num)
      (show (0 : ℚ) ≤ 1/2 by norm_num) hD hc).1 1
    (show ((1 : ℕ) : ℤ) < pyInt (((10 : ℤ) : ℚ) * (0.2 : ℚ)) by
      rw [pyInt_10_02]; norm_num)


/-! The step/reward path: the control loop characterization and the claim
theorems about step(). -/

lemma controlLoop_some {σ : Type} {k : ℕ} (F : Finger σ k)
    (goal : Option (List ℝ)) (a : Fin k → ℝ) (n : ℕ) (s : σ) (o : Obs k) :
    controlLoop F goal a n (s, some o) =
      Except.ok ((fun t => commandTick F a false t)^[n] s, some o) := by
  induction n generalizing s with
  | zero => simp [controlLoop]
  | succ n ih =>
    rw [controlLoop]
    simp only [loopIter, Option.isNone_some, commandTick, Except.bind]
    rw [ih, Function.iterate_succ_apply]
    rfl

lemma controlLoop_none {σ : Type} {k : ℕ} (F : Finger σ k) (g : List ℝ)
    (a : Fin k → ℝ) (n : ℕ) (s : σ) :
    controlLoop F (some g) a (n + 1) (s, none) =
      Except.ok ((fun t => commandTick F a false t)^[n]
          (commandTick F a true s),
        some ⟨F.position (commandTick F a true s),
          F.velocity (commandTick F a true s)⟩) := by
  rw [controlLoop]
  simp only [loopIter, Option.isNone_none, get_observation, Except.map,
    Except.bind, commandTick]
  rw [controlLoop_some]
  rfl

lemma step_spec {σ : Type} {k : ℕ} (F : Finger σ k)
    (unscale : (Fin k → ℝ) → Fin k → ℝ) (velocity_cost_factor : ℝ) (n : ℕ)
    (st : EnvState σ k) (a : Fin k → ℝ) (g : List ℝ)
    (hg : st.goal = some g) :
    step F unscale velocity_cost_factor (n + 1) st a =
      (let sm := commandedAction st.smoothing_alpha st.smoothed_action
        (unscale a)
       let s1 := commandTick F sm true st.driver
       let obs : Obs k := ⟨F.position s1, F.velocity s1⟩
       Except.ok ⟨(fun t => commandTick F sm false t)^[n] s1, sm, obs,
         (compute_reward F velocity_cost_factor (n + 1) obs g).1, false,
         0⟩) := by
  simp only [step, hg]
  rw [controlLoop_none]
  simp [Except.bind, compute_reward]

lemma step_goal_none {σ : Type} {k : ℕ} (F : Finger σ k)
    (unscale : (Fin k → ℝ) → Fin k → ℝ) (velocity_cost_factor : ℝ) (n : ℕ)
    (st : EnvState σ k) (a : Fin k → ℝ) (hg : st.goal = none) :
    step F unscale velocity_cost_factor (n + 1) st a =
      Except.error "AttributeError: goal" := by
  simp only [step, hg]
  rw [controlLoop]
  simp [loopIter, Option.isNone_none, get_observation, Except.map,
    Except.bind]

lemma step_triv : step trivFinger id 0 1 stTriv aTriv = Except.ok outTriv :=
  rfl

lemma list_self_sq_sum (g : List ℝ) :
    ((g.zip g).map fun x => (x.1 - x.2) ^ 2).sum = 0 := by
  induction g with
  | nil => simp
  | cons a tl ih =>
    simp only [List.zip_cons_cons, List.map_cons, List.sum_cons, ih,
      sub_self, add_zero]
    norm_num

lemma compute_distance_self (g : List ℝ) : compute_distance g g = 0 := by
  rw [compute_distance, list_self_sq_sum, Real.sqrt_zero]

lemma euclidNorm_zero (k : ℕ) : euclidNorm (fun _ : Fin k => (0 : ℝ)) = 0 := by
  simp [euclidNorm]

/-- C4: the action commanded to the driver is the smoothing of the unscaled
action against the buffer: on the first step of an episode (buffer absent)
it equals the unscaled incoming action exactly, for every coefficient; on
later steps it is coefficient * previous + (1 - coefficient) * unscaled;
and on every successful step() the stored smoothed action (the one the loop
commands, per the control-loop theorem) is exactly this value. -/
theorem action_smoothing :
    (∀ (k : ℕ) (α : ℝ) (u : Fin k → ℝ), commandedAction α none u = u) ∧
    (∀ (k : ℕ) (α : ℝ) (q u : Fin k → ℝ),
        commandedAction α (some q) u = fun i => α * q i + (1 - α) * u i) ∧
    (∀ (σ : Type) (k : ℕ) (F : Finger σ k)
        (unscale : (Fin k → ℝ) → Fin k → ℝ) (velocity_cost_factor : ℝ)
        (N : ℕ) (st : EnvState σ k) (a : Fin k → ℝ) (out : StepOut σ k),
        step F unscale velocity_cost_factor N st a = Except.ok out →
        out.smoothed_action =
          commandedAction st.smoothing_alpha st.smoothed_action
            (unscale a)) := by
  refine ⟨?_, ?_, ?_⟩
  · intro k α u
    funext i
    show α * u i + (1 - α) * u i = u i
    ring
  · intro k α q u
    rfl
  · intro σ k F unscale velocity_cost_factor N st a out hstep
    cases N with
    | zero => simp [step, controlLoop, Except.bind] at hstep
    | succ n =>
      rcases hgoal : st.goal with _ | g
      · rw [step_goal_none F unscale velocity_cost_factor n st a hgoal]
          at hstep
        simp at hstep
      · rw [step_spec F unscale velocity_cost_factor n st a g hgoal] at hstep
        simp only [Except.ok.injEq] at hstep
        rw [← hstep]

/-- C4 witness: the smoothing applied at concrete inputs: with an absent
buffer the commanded action is the unscaled action, and the concrete step()
call stores exactly the smoothed value. -/
theorem action_smoothing_witness :
    commandedAction (0 : ℝ) none aTriv = aTriv ∧
    outTriv.smoothed_action =
      commandedAction stTriv.smoothing_alpha stTriv.smoothed_action
        (id aTriv) :=
  ⟨action_smoothing.1 1 0 aTriv,
   action_smoothing.2.2 Unit 1 trivFinger id 0 1 stTriv aTriv outTriv
     step_triv⟩

/-- C5: every successful step() with repeat count N >= 1 drives the robot by
exactly N commandTicks (set_action with the same smoothed action in
"position" mode followed by one physical tick each), the first with wait
flag true and the remaining N-1 with flag false, and the observation used
for the result is captured from the driver state right after the first of
the N ticks, not after all of them. -/
theorem step_control_loop (σ : Type) (k : ℕ) (F : Finger σ k)
    (unscale : (Fin k → ℝ) → Fin k → ℝ) (velocity_cost_factor : ℝ) (N : ℕ)
    (st : EnvState σ k) (a : Fin k → ℝ) (g : List ℝ) (out : StepOut σ k)
    (hg : st.goal = some g) (hN : 1 ≤ N)
    (hstep : step F unscale velocity_cost_factor N st a = Except.ok out) :
    out.driver =
      (fun t => commandTick F (commandedAction st.smoothing_alpha
        st.smoothed_action (unscale a)) false t)^[N - 1]
        (commandTick F (commandedAction st.smoothing_alpha
          st.smoothed_action (unscale a)) true st.driver) ∧
    out.observation =
      ⟨F.position (commandTick F (commandedAction st.smoothing_alpha
          st.smoothed_action (unscale a)) true st.driver),
       F.velocity (commandTick F (commandedAction st.smoothing_alpha
          st.smoothed_action (unscale a)) true st.driver)⟩ := by
  obtain ⟨n, rfl⟩ : ∃ n, N = n + 1 :=
    ⟨N - 1, (Nat.succ_pred_eq_of_pos hN).symm⟩
  rw [step_spec F unscale velocity_cost_factor n st a g hg] at hstep
  simp only [Except.ok.injEq] at hstep
  rw [← hstep]
  simp only [Nat.add_sub_cancel]
  exact ⟨trivial, trivial⟩

/-- C5 witness: the theorem applied to the concrete step() call on the
trivial driver with N = 1. -/
theorem step_control_loop_witness :
    outTriv.driver =
      (fun t => commandTick trivFinger (commandedAction
        stTriv.smoothing_alpha stTriv.smoothed_action (id aTriv)) false
        t)^[1 - 1]
        (commandTick trivFinger (commandedAction stTriv.smoothing_alpha
          stTriv.smoothed_action (id aTriv)) true stTriv.driver) ∧
    outTriv.observation =
      ⟨trivFinger.position (commandTick trivFinger (commandedAction
          stTriv.smoothing_alpha stTriv.smoothed_action (id aTriv)) true
          stTriv.driver),
       trivFinger.velocity (commandTick trivFinger (commandedAction
          stTriv.smoothing_alpha stTriv.smoothed_action (id aTriv)) true
          stTriv.driver)⟩ :=
  step_control_loop Unit 1 trivFinger id 0 1 stTriv aTriv [0] outTriv rfl
    (le_refl 1) step_triv

/-- C3: the reward returned by every successful step() is
(-d - velocity_cost_factor * v) * N where d is the Euclidean distance from
the forward kinematics of the observed joint positions to the goal and v is
the Euclidean norm of the observed joint velocities; consequently with the
end effector exactly at the goal and zero joint velocities the reward is
exactly 0. -/
theorem reward_spec (σ : Type) (k : ℕ) (F : Finger σ k)
    (unscale : (Fin k → ℝ) → Fin k → ℝ) (velocity_cost_factor : ℝ) (N : ℕ)
    (st : EnvState σ k) (a : Fin k → ℝ) (g : List ℝ) (out : StepOut σ k)
    (hg : st.goal = some g) (hN : 1 ≤ N)
    (hstep : step F unscale velocity_cost_factor N st a = Except.ok out) :
    out.reward = (-(compute_distance (F.forward_kinematics
        out.observation.joint_positions) g) -
      velocity_cost_factor * euclidNorm out.observation.joint_velocities) *
      (N : ℝ) ∧
    (F.forward_kinematics out.observation.joint_positions = g →
      out.observation.joint_velocities = (fun _ => 0) →
      out.reward = 0) := by
  obtain ⟨n, rfl⟩ : ∃ n, N = n + 1 :=
    ⟨N - 1, (Nat.succ_pred_eq_of_pos hN).symm⟩
  rw [step_spec F unscale velocity_cost_factor n st a g hg] at hstep
  simp only [Except.ok.injEq] at hstep
  rw [← hstep]
  refine ⟨rfl, ?_⟩
  intro h1 h2
  dsimp only [compute_reward] at h1 h2 ⊢
  rw [h1, compute_distance_self, h2, euclidNorm_zero]
  ring

/-- C3 witness: the concrete step() call on the trivial driver has its end
effector exactly at the goal and zero velocities, so its reward is 0. -/
theorem reward_spec_witness : outTriv.reward = 0 :=
  (reward_spec Unit 1 trivFinger id 0 1 stTriv aTriv [0] outTriv rfl
    (le_refl 1) step_triv).2 rfl rfl

/-- C7: every successful step() returns done = false and is_success = 0; the
environment never signals termination or success. -/
theorem done_always_false (σ : Type) (k : ℕ) (F : Finger σ k)
    (unscale : (Fin k → ℝ) → Fin k → ℝ) (velocity_cost_factor : ℝ) (N : ℕ)
    (st : EnvState σ k) (a : Fin k → ℝ) (out : StepOut σ k)
    (hstep : step F unscale velocity_cost_factor N st a = Except.ok out) :
    out.done = false ∧ out.is_success = 0 := by
  cases N with
  | zero => simp [step, controlLoop, Except.bind] at hstep
  | succ n =>
    rcases hgoal : st.goal with _ | g
    · rw [step_goal_none F unscale velocity_cost_factor n st a hgoal]
        at hstep
      simp at hstep
    · rw [step_spec F unscale velocity_cost_factor n st a g hgoal] at hstep
      simp only [Except.ok.injEq] at hstep
      rw [← hstep]
      exact ⟨rfl, rfl⟩

/-- C7 witness: the concrete step() call returns done = false and
is_success = 0. -/
theorem done_always_false_witness :
    outTriv.done = false ∧ outTriv.is_success = 0 :=
  done_always_false Unit 1 trivFinger id 0 1 stTriv aTriv outTriv step_triv

/-- C8: a step() on a state whose goal attribute has never been set fails
with an AttributeError rather than proceeding; and reset() always defines
the goal, so the constructor, whose last action is reset(), leaves the goal
defined before any external call is possible. -/
theorem step_requires_goal :
    (∀ (σ : Type) (k : ℕ) (F : Finger σ k)
        (unscale : (Fin k → ℝ) → Fin k → ℝ) (velocity_cost_factor : ℝ)
        (N : ℕ) (st : EnvState σ k) (a : Fin k → ℝ),
        st.goal = none → 1 ≤ N →
        step F unscale velocity_cost_factor N st a =
          Except.error "AttributeError: goal") ∧
    (∀ (σ : Type) (k : ℕ) (F : Finger σ k) (st : EnvState σ k)
        (sampled : Fin k → ℝ),
        ((reset F st sampled).goal).isSome = true) := by
  constructor
  · intro σ k F unscale velocity_cost_factor N st a hg hN
    obtain ⟨n, rfl⟩ : ∃ n, N = n + 1 :=
      ⟨N - 1, (Nat.succ_pred_eq_of_pos hN).symm⟩
    exact step_goal_none F unscale velocity_cost_factor n st a hg
  · intro σ k F st sampled
    simp [reset]

/-- C8 witness: the concrete goalless state makes step() fail with
AttributeError, and reset() on it defines the goal. -/
theorem step_requires_goal_witness :
    step trivFinger id 0 1 stNoGoal aTriv =
      Except.error "AttributeError: goal" ∧
    ((reset trivFinger stNoGoal aTriv).goal).isSome = true :=
  ⟨step_requires_goal.1 Unit 1 trivFinger id 0 1 stNoGoal aTriv rfl
    (le_refl 1),
   step_requires_goal.2 Unit 1 trivFinger stNoGoal aTriv⟩


end FingerReach
